import Mathlib

/-!
Shallow embedding of `src/app.py` (ai-video-analyzer), the Flask server
exposing `/api/upload-video`, `/api/chat` and `/api/chat-history`.

Modelling conventions:
* The module-global mutable variables `video_file_id` and `chat_history`
  (app.py lines 33-34) become the fields of `ServerState`; every route
  handler is a pure function from a request, an oracle describing the
  external collaborators (Gemini file API, the agno Agent), and the current
  `ServerState`, to a response value paired with the next `ServerState`.
* Python exceptions raised by the collaborators are modelled with `Except`:
  an oracle field of type `Except String A` is `.error msg` exactly when the
  corresponding remote call raises. A handler that catches the exception
  returns an ordinary response value; the embedding of a handler is total
  (returns a response for every input), mirroring the fact that every route
  wraps its body in try/except and never lets an exception escape.
* Wall-clock time in the polling loop advances only at `time.sleep(2)`
  (app.py line 154): each sleep adds `interval` time-units to `elapsed`,
  all other operations are instantaneous. `max_wait_time` (300 in the code)
  and the sleep interval (2 in the code) are kept as parameters because the
  spec lists them as configuration options; `maxWaitDefault`/`intervalDefault`
  record the code's values.
-/

/-- Turn role, the `'role'` field of a chat-history entry (app.py 191/198). -/
inductive Role where
  | user
  | assistant
deriving DecidableEq, Repr

/-- One chat-history entry `{'role': ..., 'content': ...}` (app.py 191). -/
structure Turn where
  role : Role
  content : String
deriving DecidableEq, Repr

/-- The process-wide mutable state of app.py: the globals `video_file_id`
(line 33, `None` initially) and `chat_history` (line 34, `[]` initially). -/
structure ServerState where
  video_file_id : Option String
  chat_history : List Turn
deriving DecidableEq, Repr

/-- The state of the globals right after module load (app.py 33-34). -/
def initialState : ServerState := ⟨none, []⟩

/-- Python truthiness of the `video_file_id` global as used by
`if not video_file_id:` (app.py 40): `None` and `""` are falsy. -/
def truthy : Option String → Bool
  | none => false
  | some s => s ≠ ""

/-- Remote file lifecycle state, the `state` attribute of a Gemini file
object as compared against in app.py lines 151 and 157. -/
inductive FileState where
  | PROCESSING
  | READY
  | FAILED
deriving DecidableEq, Repr

/-- A Gemini file object as used by upload_video: its `name` (the opaque
handle stored into `video_file_id`, app.py 160) and its `state`. -/
structure FileRef where
  name : String
  state : FileState
deriving DecidableEq, Repr

/-- Result of the `while file_ref.state == "PROCESSING"` loop
(app.py 151-155). `timedOut` is the `return ..., 408` at line 153;
`finished` carries the first file object whose state is not PROCESSING.
`polls` counts the `client.files.get` calls made. `fuelOut` is an artefact
of the fuel-indexed encoding and is unreachable for positive `interval`
once `fuel` exceeds `maxWait` (see `pollLoop_no_fuelOut`). -/
inductive PollOutcome where
  | timedOut (polls : Nat)
  | finished (ref : FileRef) (polls : Nat)
  | fuelOut
deriving DecidableEq, Repr

/-- The polling loop of app.py 151-155.  While the current file object is
PROCESSING: if `elapsed > maxWait` return 408 (the code's strict
`time.time() - start_time > max_wait_time`); otherwise sleep `interval`
time-units and re-fetch the file object (`getStatus n` is the result of the
(n+1)-th `client.files.get` call). -/
def pollLoop (getStatus : Nat → FileRef) (maxWait interval : Nat) :
    Nat → Nat → Nat → FileRef → PollOutcome
  | fuel, elapsed, polls, ref =>
    if ref.state = FileState.PROCESSING then
      if elapsed > maxWait then
        PollOutcome.timedOut polls
      else
        match fuel with
        | 0 => PollOutcome.fuelOut
        | f + 1 =>
            pollLoop getStatus maxWait interval f (elapsed + interval)
              (polls + 1) (getStatus polls)
    else
      PollOutcome.finished ref polls

/-- The code's `max_wait_time = 300` (app.py 148). -/
def maxWaitDefault : Nat := 300

/-- The code's `time.sleep(2)` interval (app.py 154). -/
def intervalDefault : Nat := 2

/-- The multipart request received by upload_video: whether the form carries
a `'video'` file field (app.py 129) and that file's filename (app.py 133). -/
structure UploadRequest where
  hasVideoField : Bool
  filename : String
deriving DecidableEq, Repr

/-- External behaviour driving one upload_video call:
`saveOk` — whether `video.save(tmp.name)` (app.py 140) completes without
raising; `uploadResult` — the result of `client.files.upload` (app.py 145),
`.error` when it raises; `getStatus` — the successive results of
`client.files.get` (app.py 155). -/
structure UploadOracle where
  saveOk : Bool
  uploadResult : Except String FileRef
  getStatus : Nat → FileRef

/-- The HTTP response of upload_video. -/
inductive UploadResult where
  /-- 200 `{'success': True, 'file_id': fileId}` (app.py 161-165). -/
  | ok (fileId : String)
  /-- 400 `'没有上传文件'` (app.py 130). -/
  | badRequestNoFile
  /-- 400 `'文件名为空'` (app.py 134). -/
  | badRequestEmptyName
  /-- 408 `'视频处理超时'` (app.py 153). -/
  | timeout408
  /-- 500 `'视频处理失败'` (app.py 158). -/
  | failed500
  /-- 500 `'上传失败: ...'` from the except-clause (app.py 168). -/
  | exception500 (msg : String)
  /-- Fuel exhaustion artefact of the embedding, never produced for a
  positive poll interval (see `upload_no_fuelOut`). -/
  | fuelOut
deriving DecidableEq, Repr

/-- Observable outcome of one upload_video call, beyond the new state:
the HTTP response, whether the temp file was created on disk
(`tempfile.NamedTemporaryFile` at app.py 139 creates it eagerly), whether
that file is still on disk after the `finally` block (app.py 170-176),
how many `client.files.upload` calls were made, and how many
`client.files.get` polls were made. -/
structure UploadOutcome where
  result : UploadResult
  tempCreated : Bool
  tempLeaked : Bool
  uploadCalls : Nat
  polls : Nat
deriving DecidableEq, Repr

/-- The effect-free part of upload_video (app.py 124-176): everything the
call does except the assignment to the global `video_file_id`.
Control flow follows the source line by line:
reject a missing `'video'` field (129) or empty filename (133) before any
side effect; create the temp file (139); if `video.save` raises, the
variable `temp_path` is still `None`, so the `finally` block skips the
unlink and the created temp file leaks (`tempLeaked := true`); call
`client.files.upload` (145); run the polling loop (151-155); on FAILED
return 500 (157-158); otherwise return the file's `name` (160-165).
In every path after a successful `video.save`, `temp_path` is set, so the
`finally` block removes the temp file. -/
def uploadOutcome (o : UploadOracle) (req : UploadRequest)
    (maxWait interval : Nat) : UploadOutcome :=
  if ¬ req.hasVideoField then
    ⟨UploadResult.badRequestNoFile, false, false, 0, 0⟩
  else if req.filename = "" then
    ⟨UploadResult.badRequestEmptyName, false, false, 0, 0⟩
  else if ¬ o.saveOk then
    ⟨UploadResult.exception500 "save failed", true, true, 0, 0⟩
  else
    match o.uploadResult with
    | Except.error e => ⟨UploadResult.exception500 e, true, false, 1, 0⟩
    | Except.ok ref =>
        match pollLoop o.getStatus maxWait interval (maxWait + 1) 0 0 ref with
        | PollOutcome.timedOut polls =>
            ⟨UploadResult.timeout408, true, false, 1, polls⟩
        | PollOutcome.finished fref polls =>
            if fref.state = FileState.FAILED then
              ⟨UploadResult.failed500, true, false, 1, polls⟩
            else
              ⟨UploadResult.ok fref.name, true, false, 1, polls⟩
        | PollOutcome.fuelOut => ⟨UploadResult.fuelOut, true, false, 1, 0⟩

/-- upload_video (app.py 124-176): the outcome together with the next
global state. The global `video_file_id` is written exactly on the success
path (`video_file_id = file_ref.name`, app.py 160); every other path leaves
the globals untouched. `chat_history` is never touched by upload_video. -/
def upload_video (o : UploadOracle) (req : UploadRequest)
    (maxWait interval : Nat) (st : ServerState) :
    UploadOutcome × ServerState :=
  let out := uploadOutcome o req maxWait interval
  match out.result with
  | UploadResult.ok fileId => (out, { st with video_file_id := some fileId })
  | _ => (out, st)

/-- The fixed string returned by analyze_drone_video when no video handle is
bound (app.py 41). -/
def noVideoNotice : String := "提示：当前系统中未发现挂载的视频，请告知用户先上传视频。"

/-- The fixed marker prefixed to the exception text by analyze_drone_video's
except-clause (app.py 53). -/
def visionErrPrefix : String := "视觉分析执行出错: "

/-- The tool function analyze_drone_video (app.py 37-53).
`video_file_id` is the current value of the global; `generate` is the result
of `client.models.generate_content` (app.py 50), `.error e` when that call
raises with message `e`. The function is total: it returns a string on every
input, never propagating an exception. -/
def analyze_drone_video (video_file_id : Option String)
    (generate : Except String String) (query : String) : String :=
  if ¬ truthy video_file_id then
    noVideoNotice
  else
    match generate with
    | Except.ok text => text
    | Except.error e => visionErrPrefix ++ e

/-- The tools handed to the agno Agent by get_drone_agent (app.py 80-85). -/
inductive Tool where
  | analyzeDroneVideo
  | webSearch
  | mcpDuckduckgo
  | mcpWeather
deriving DecidableEq, Repr

/-- `tools_list` of get_drone_agent (app.py 80-85). -/
def droneAgentTools : List Tool :=
  [Tool.analyzeDroneVideo, Tool.webSearch, Tool.mcpDuckduckgo, Tool.mcpWeather]

/-- The inference call a handler issues for one message.
`agentRouted msg` is `agent.run(msg)` (app.py 194): the general-purpose
agno Agent with the tool list `droneAgentTools`, which itself selects
tools. `groundedDirect fileId msg` is a direct
`client.models.generate_content` call carrying the file reference
`fileId` (this shape occurs in the source only inside the tool
analyze_drone_video, app.py 44-50). -/
inductive InferenceCall where
  | agentRouted (msg : String)
  | groundedDirect (fileId : String) (msg : String)
deriving DecidableEq, Repr

/-- The inference call issued by one chat request (app.py 178-209): `none`
when the message is empty (rejected at 186-187 before any call), otherwise
always `agent.run(user_message)` (app.py 194) — independently of the current
`video_file_id`. -/
def chatCall (msg : String) (st : ServerState) : Option InferenceCall :=
  if msg = "" then none
  else some (InferenceCall.agentRouted msg)

/-- The inference call issued by the tool analyze_drone_video (app.py
37-50): `none` when no video handle is bound (it returns `noVideoNotice`
without any remote call), otherwise the direct grounded
`generate_content` call referencing the bound handle. -/
def analyzeCall (video_file_id : Option String) (query : String) :
    Option InferenceCall :=
  match video_file_id with
  | none => none
  | some v =>
      if v = "" then none
      else some (InferenceCall.groundedDirect v query)

/-- The fixed marker prefixed to the exception text by chat's except-clause
(app.py 207). -/
def chatErrPrefix : String := "❌ 分析过程出错: "

/-- The HTTP response of chat. -/
inductive ChatResult where
  /-- 400 `'消息不能为空'` (app.py 187). -/
  | badRequest
  /-- 200 `{'success': True, 'message': msg, 'history': ...}` (app.py 200-204). -/
  | ok (msg : String)
  /-- 500 `{'error': msg}` from the except-clause (app.py 206-209);
  a returned response, not an escaping exception. -/
  | errorResp (msg : String)
deriving DecidableEq, Repr

/-- chat (app.py 178-209). `agentRun` is the result of
`agent.run(user_message)` (app.py 194), `.error e` when it raises with
message `e`. An empty message is rejected before any state change
(186-187). Otherwise the user turn is appended first (191); on success the
assistant turn with the agent's content is appended (198); on an exception
the except-clause appends an assistant turn whose content is
`chatErrPrefix ++ e` (207-208) and a 500 response is returned — the
exception does not escape. The handler never reads `video_file_id`. -/
def chat (agentRun : Except String String) (msg : String)
    (st : ServerState) : ChatResult × ServerState :=
  if msg = "" then
    (ChatResult.badRequest, st)
  else
    match agentRun with
    | Except.ok content =>
        (ChatResult.ok content,
         { st with chat_history :=
             st.chat_history ++ [⟨Role.user, msg⟩, ⟨Role.assistant, content⟩] })
    | Except.error e =>
        (ChatResult.errorResp (chatErrPrefix ++ e),
         { st with chat_history :=
             st.chat_history ++
               [⟨Role.user, msg⟩, ⟨Role.assistant, chatErrPrefix ++ e⟩] })

/-- get_chat_history (app.py 211-214): returns the global history. -/
def get_chat_history (st : ServerState) : List Turn := st.chat_history

/-- The handle a session observes. app.py keys nothing by session: every
request reads the single module-global `video_file_id`, so the observed
handle is independent of any session identity. -/
def observedHandle (sessionId : String) (st : ServerState) : Option String :=
  st.video_file_id

/-- The conversation log a session observes: likewise the single
module-global `chat_history`, independent of the session identity. -/
def observedLog (sessionId : String) (st : ServerState) : List Turn :=
  st.chat_history

/-- A whole sequence of upload_video calls with the code's configuration
(maxWait 300, interval 2), threaded through the global state. -/
def runUploads (calls : List (UploadOracle × UploadRequest))
    (st : ServerState) : ServerState :=
  calls.foldl
    (fun s c => (upload_video c.1 c.2 maxWaitDefault intervalDefault s).2) st

/-- Whether one upload_video call reaches READY, and with which handle:
the call passes validation, `video.save` and `client.files.upload`
succeed, and the polling loop finishes with a file object in state READY;
the handle is that object's `name`. -/
def callReadyId (c : UploadOracle × UploadRequest) : Option String :=
  if c.2.hasVideoField ∧ c.2.filename ≠ "" ∧ c.1.saveOk then
    match c.1.uploadResult with
    | Except.ok ref =>
        match pollLoop c.1.getStatus maxWaitDefault intervalDefault
            (maxWaitDefault + 1) 0 0 ref with
        | PollOutcome.finished fref _ =>
            if fref.state = FileState.READY then some fref.name else none
        | _ => none
    | Except.error _ => none
  else none

/-- The handle of the most recent call of the sequence that reached READY,
or `none` when no call has. -/
def lastReadyId (calls : List (UploadOracle × UploadRequest)) :
    Option String :=
  calls.foldl (fun acc c => (callReadyId c).elim acc some) none

/-! ## Helper lemmas about the polling loop -/

/-- The polling loop only reports `finished` on a file object that has left
PROCESSING (the loop condition at app.py 151). -/
theorem pollLoop_finished_not_processing (g : Nat → FileRef) (mw i : Nat) :
    ∀ (fuel e p : Nat) (ref fref : FileRef) (polls : Nat),
      pollLoop g mw i fuel e p ref = PollOutcome.finished fref polls →
      fref.state ≠ FileState.PROCESSING := by
  intro fuel
  induction fuel with
  | zero =>
    intro e p ref fref polls h
    rw [pollLoop] at h
    by_cases hs : ref.state = FileState.PROCESSING
    · simp [hs] at h
      split at h <;> simp_all
    · simp [hs] at h
      exact h.1 ▸ hs
  | succ f ih =>
    intro e p ref fref polls h
    rw [pollLoop] at h
    by_cases hs : ref.state = FileState.PROCESSING
    · simp [hs] at h
      split at h
      · simp_all
      · exact ih _ _ _ _ _ h
    · simp [hs] at h
      exact h.1 ▸ hs

/-- With a positive sleep interval and fuel exceeding the wait budget, the
fuel encoding is invisible: the loop always ends in `timedOut` or
`finished`, matching the source loop, which always terminates because
`elapsed` grows by `interval` each iteration until it passes `maxWait`. -/
theorem pollLoop_no_fuelOut (g : Nat → FileRef) (mw i : Nat) (hi : 0 < i) :
    ∀ (fuel e p : Nat) (ref : FileRef), mw + 1 ≤ e + fuel →
      pollLoop g mw i fuel e p ref ≠ PollOutcome.fuelOut := by
  intro fuel
  induction fuel with
  | zero =>
    intro e p ref hb
    rw [pollLoop]
    by_cases hs : ref.state = FileState.PROCESSING
    · have ht : e > mw := by omega
      simp [hs, ht]
    · simp [hs]
  | succ f ih =>
    intro e p ref hb
    rw [pollLoop]
    by_cases hs : ref.state = FileState.PROCESSING
    · by_cases ht : e > mw
      · simp [hs, ht]
      · simp [hs, ht]
        exact ih (e + i) (p + 1) (g p) (by omega)
    · simp [hs]

/-- The fuel artefact never surfaces through upload_video: with a positive
poll interval, `uploadOutcome` never reports `fuelOut`. -/
theorem upload_no_fuelOut (o : UploadOracle) (req : UploadRequest)
    (mw i : Nat) (hi : 0 < i) :
    (uploadOutcome o req mw i).result ≠ UploadResult.fuelOut := by
  unfold uploadOutcome
  by_cases hv : req.hasVideoField = true
  · by_cases hf : req.filename = ""
    · simp [hv, hf]
    · by_cases hs : o.saveOk = true
      · cases hu : o.uploadResult with
        | error e => simp [hv, hf, hs, hu]
        | ok ref =>
          cases hp : pollLoop o.getStatus mw i (mw + 1) 0 0 ref with
          | timedOut polls => simp [hv, hf, hs, hu, hp]
          | finished fref polls =>
            by_cases hfail : fref.state = FileState.FAILED
            · simp [hv, hf, hs, hu, hp, hfail]
            · simp [hv, hf, hs, hu, hp, hfail]
          | fuelOut =>
            exact absurd hp (pollLoop_no_fuelOut o.getStatus mw i hi _ _ _ _ (by omega))
      · simp [hv, hf, hs]
  · simp [hv]

/-- Effect of a single upload_video call on the stored handle: it becomes
the new file's name exactly when the call reached READY, and is untouched
otherwise. -/
theorem upload_video_video_file_id (o : UploadOracle) (req : UploadRequest)
    (st : ServerState) :
    (upload_video o req maxWaitDefault intervalDefault st).2.video_file_id
      = (callReadyId (o, req)).elim st.video_file_id some := by
  unfold upload_video callReadyId uploadOutcome
  by_cases hv : req.hasVideoField = true
  · by_cases hf : req.filename = ""
    · simp [hv, hf]
    · by_cases hs : o.saveOk = true
      · cases hu : o.uploadResult with
        | error e => simp [hv, hf, hs, hu]
        | ok ref =>
          cases hp : pollLoop o.getStatus maxWaitDefault intervalDefault
              (maxWaitDefault + 1) 0 0 ref with
          | timedOut polls => simp [hv, hf, hs, hu, hp]
          | fuelOut => simp [hv, hf, hs, hu, hp]
          | finished fref polls =>
            have hnp := pollLoop_finished_not_processing o.getStatus
              maxWaitDefault intervalDefault _ _ _ _ _ _ hp
            by_cases hfail : fref.state = FileState.FAILED
            · simp [hv, hf, hs, hu, hp, hfail]
            · have hready : fref.state = FileState.READY := by
                cases h : fref.state <;> simp_all
              simp [hv, hf, hs, hu, hp, hfail, hready]
      · simp [hv, hf, hs]
  · simp [hv]

/-- The stored handle after a sequence of upload_video calls, from any
starting state, is the fold of the per-call READY results. -/
theorem runUploads_video_file_id (calls : List (UploadOracle × UploadRequest)) :
    ∀ st : ServerState,
      (runUploads calls st).video_file_id
        = calls.foldl (fun acc c => (callReadyId c).elim acc some)
            st.video_file_id := by
  induction calls with
  | nil => intro st; rfl
  | cons c cs ih =>
    intro st
    simp only [runUploads, List.foldl_cons] at *
    rw [ih]
    rw [upload_video_video_file_id]

/-! ## Claim theorems -/

/-- C4: over any sequence of upload_video calls on the fresh state, the
stored handle — the value grounding is checked against — is exactly the
handle of the most recent call that reached READY, or `none` when no call
has reached READY yet. Since `lastReadyId` only ever selects names of file
objects whose final polled state is READY, the store never holds a handle
that was still PROCESSING. -/
theorem active_handle_last_ready (calls : List (UploadOracle × UploadRequest)) :
    (runUploads calls initialState).video_file_id = lastReadyId calls := by
  rw [runUploads_video_file_id]
  rfl

/-- Oracle for Scenario B: the remote asset never leaves PROCESSING. -/
def c5Oracle : UploadOracle :=
  ⟨true, Except.ok ⟨"files/v0", FileState.PROCESSING⟩,
    fun _ => ⟨"files/v0", FileState.PROCESSING⟩⟩

/-- A well-formed upload request used by the concrete scenarios. -/
def sampleReq : UploadRequest := ⟨true, "a.mp4"⟩

/-- C5, counterexample: with maxWait = 4, interval = 2 and an asset that
never leaves PROCESSING, the call does time out, but it performs 3 status
polls, not 2 as claimed: the timeout check `elapsed > maxWait` is strict
and runs before the sleep, so at elapsed = 4 (budget exactly consumed) the
loop sleeps and polls once more before failing. -/
theorem timeout_polls_counterexample :
    (uploadOutcome c5Oracle sampleReq 4 2).result = UploadResult.timeout408
      ∧ (uploadOutcome c5Oracle sampleReq 4 2).polls = 3
      ∧ (3 : Nat) ≠ 2 :=
  ⟨rfl, rfl, by decide⟩

/-- C5, amended: for every upload whose asset never leaves PROCESSING,
with max wait 4 and poll interval 2, the call performs exactly 3 status
polls and then fails with the 408 timeout. -/
theorem timeout_three_polls (o : UploadOracle) (req : UploadRequest)
    (ref : FileRef) (hv : req.hasVideoField = true) (hf : req.filename ≠ "")
    (hs : o.saveOk = true) (hu : o.uploadResult = Except.ok ref)
    (h0 : ref.state = FileState.PROCESSING)
    (hg : ∀ n, (o.getStatus n).state = FileState.PROCESSING) :
    (uploadOutcome o req 4 2).result = UploadResult.timeout408
      ∧ (uploadOutcome o req 4 2).polls = 3 := by
  have hp : pollLoop o.getStatus 4 2 5 0 0 ref = PollOutcome.timedOut 3 := by
    rw [pollLoop]
    simp only [h0, if_true, if_pos]
    norm_num
    rw [pollLoop]
    simp only [hg, if_true]
    norm_num
    rw [pollLoop]
    simp only [hg, if_true]
    norm_num
    rw [pollLoop]
    simp [hg]
  unfold uploadOutcome
  simp [hv, hf, hs, hu, hp]

/-- C5 witness: the amended statement holds at the concrete
never-PROCESSING oracle. -/
theorem timeout_three_polls_witness :
    (uploadOutcome c5Oracle sampleReq 4 2).result = UploadResult.timeout408
      ∧ (uploadOutcome c5Oracle sampleReq 4 2).polls = 3 :=
  timeout_three_polls c5Oracle sampleReq ⟨"files/v0", FileState.PROCESSING⟩
    rfl (by decide) rfl rfl rfl (fun _ => rfl)

/-- C6: whenever the polled asset ends in FAILED, upload_video answers
with the 500 `'视频处理失败'` response and leaves the whole server state —
in particular the stored handle — exactly at its prior value: the
assignment `video_file_id = file_ref.name` (app.py 160) is on the success
path only, so no stale handle is stored. -/
theorem failed_ingest_leaves_store (o : UploadOracle) (req : UploadRequest)
    (st : ServerState) (ref fref : FileRef) (polls : Nat)
    (hv : req.hasVideoField = true) (hf : req.filename ≠ "")
    (hs : o.saveOk = true) (hu : o.uploadResult = Except.ok ref)
    (hp : pollLoop o.getStatus maxWaitDefault intervalDefault
        (maxWaitDefault + 1) 0 0 ref = PollOutcome.finished fref polls)
    (hfail : fref.state = FileState.FAILED) :
    (upload_video o req maxWaitDefault intervalDefault st).1.result
        = UploadResult.failed500
      ∧ (upload_video o req maxWaitDefault intervalDefault st).2 = st := by
  unfold upload_video uploadOutcome
  simp [hv, hf, hs, hu, hp, hfail]

/-- Oracle whose asset is FAILED from the start. -/
def c6Oracle : UploadOracle :=
  ⟨true, Except.ok ⟨"files/bad", FileState.FAILED⟩,
    fun _ => ⟨"files/bad", FileState.FAILED⟩⟩

/-- C6 witness: a concrete FAILED ingestion returns the 500 response and
leaves the fresh state untouched. -/
theorem failed_ingest_leaves_store_witness :
    (upload_video c6Oracle sampleReq maxWaitDefault intervalDefault
        initialState).1.result = UploadResult.failed500
      ∧ (upload_video c6Oracle sampleReq maxWaitDefault intervalDefault
          initialState).2 = initialState :=
  failed_ingest_leaves_store c6Oracle sampleReq initialState
    ⟨"files/bad", FileState.FAILED⟩ ⟨"files/bad", FileState.FAILED⟩ 0
    rfl (by decide) rfl rfl rfl rfl

/-- A state with a READY handle bound: `truthy video_file_id` holds. -/
def boundState : ServerState := ⟨some "files/ready1", []⟩

/-- C1, counterexample: with a READY handle bound (`boundState`), a chat
request still issues `agent.run` — the general-purpose tool-selection
agent call — and not a direct grounded request referencing the handle.
app.py 194 calls `agent.run(user_message)` unconditionally; no branch on
`video_file_id` exists in the chat handler. -/
theorem chat_always_agent_counterexample :
    truthy boundState.video_file_id = true
      ∧ chatCall "hi" boundState = some (InferenceCall.agentRouted "hi")
      ∧ InferenceCall.agentRouted "hi"
          ≠ InferenceCall.groundedDirect "files/ready1" "hi" :=
  ⟨rfl, rfl, by decide⟩

/-- C1, amended: every nonempty chat message — whether or not a READY
handle is bound — is routed through the general-purpose tool-selection
agent (`agent.run`), whose tool list contains analyze_drone_video; the
grounded request referencing the bound handle is issued only inside that
tool, when the agent elects to invoke it. -/
theorem chat_routes_through_agent (msg v q : String) (st : ServerState)
    (h : msg ≠ "") (hv : v ≠ "") :
    chatCall msg st = some (InferenceCall.agentRouted msg)
      ∧ Tool.analyzeDroneVideo ∈ droneAgentTools
      ∧ analyzeCall (some v) q = some (InferenceCall.groundedDirect v q) := by
  refine ⟨by simp [chatCall, h], by simp [droneAgentTools], ?_⟩
  simp [analyzeCall, hv]

/-- C1 witness: the amended statement at a concrete message and handle. -/
theorem chat_routes_through_agent_witness :
    chatCall "hi" boundState = some (InferenceCall.agentRouted "hi")
      ∧ Tool.analyzeDroneVideo ∈ droneAgentTools
      ∧ analyzeCall (some "files/ready1") "q"
          = some (InferenceCall.groundedDirect "files/ready1" "q") :=
  chat_routes_through_agent "hi" "files/ready1" "q" boundState
    (by decide) (by decide)

/-- C2: every chat call with a nonempty message appends exactly two turns
to the history — a user turn carrying the message followed by one
assistant turn — on the success path and on the exception path alike
(app.py 191/198 and 191/208), so the length grows by exactly 2. The
assistant turn's content is the agent's reply on success and the marked
error message on failure. -/
theorem chat_appends_two_turns (a : Except String String) (msg : String)
    (st : ServerState) (h : msg ≠ "") :
    ((chat a msg st).2).chat_history
      = st.chat_history ++
          [⟨Role.user, msg⟩,
           ⟨Role.assistant,
             match a with
             | Except.ok c => c
             | Except.error e => chatErrPrefix ++ e⟩]
      ∧ ((chat a msg st).2).chat_history.length
          = st.chat_history.length + 2 := by
  unfold chat
  cases a <;> simp [h]

/-- C2 witness: concrete success and state. -/
theorem chat_appends_two_turns_witness :
    ((chat (Except.ok "ok") "hi" initialState).2).chat_history
      = initialState.chat_history ++
          [⟨Role.user, "hi"⟩, ⟨Role.assistant, "ok"⟩]
      ∧ ((chat (Except.ok "ok") "hi" initialState).2).chat_history.length
          = initialState.chat_history.length + 2 :=
  chat_appends_two_turns (Except.ok "ok") "hi" initialState (by decide)

/-- C3: a chat call with no bound handle whose `agent.run` raises appends
the user turn with the original text followed by an assistant turn whose
content is the fixed error marker `chatErrPrefix` followed by the
exception text, and returns the 500 response — `chat` is total, so no
exception escapes the handler (the except-clause at app.py 206-209
converts it into the recorded turn and a response). -/
theorem chat_inference_error_recorded (msg e : String) (st : ServerState)
    (h : msg ≠ "") (hnone : st.video_file_id = none) :
    chat (Except.error e) msg st
      = (ChatResult.errorResp (chatErrPrefix ++ e),
         { st with chat_history :=
             st.chat_history ++
               [⟨Role.user, msg⟩, ⟨Role.assistant, chatErrPrefix ++ e⟩] }) := by
  unfold chat
  simp [h]

/-- C3 witness: concrete failing inference on the fresh state. -/
theorem chat_inference_error_recorded_witness :
    chat (Except.error "boom") "hi" initialState
      = (ChatResult.errorResp (chatErrPrefix ++ "boom"),
         { initialState with chat_history :=
             initialState.chat_history ++
               [⟨Role.user, "hi"⟩,
                ⟨Role.assistant, chatErrPrefix ++ "boom"⟩] }) :=
  chat_inference_error_recorded "hi" "boom" initialState (by decide) rfl

/-- Oracle for the save-failure path: `video.save(tmp.name)` raises. -/
def c7Oracle : UploadOracle :=
  ⟨false, Except.ok ⟨"files/ok", FileState.READY⟩,
    fun _ => ⟨"files/ok", FileState.READY⟩⟩

/-- C7, at the failing input: when `video.save` raises inside the
`NamedTemporaryFile` with-block, the temp file has already been created
(`delete=False` creates it eagerly) but `temp_path` is still `None` — it
is assigned only after the save (app.py 140-141) — so the `finally` block
(app.py 172) skips the unlink and the temp file is left on disk, while
the handler returns the 500 response. This contradicts the claimed
release on every exit path; on every path where `video.save` succeeds the
file is released (`save_ok_releases_temp`). -/
theorem save_failure_leaks_temp :
    (uploadOutcome c7Oracle sampleReq maxWaitDefault intervalDefault).tempCreated
        = true
      ∧ (uploadOutcome c7Oracle sampleReq maxWaitDefault
          intervalDefault).tempLeaked = true
      ∧ (uploadOutcome c7Oracle sampleReq maxWaitDefault
          intervalDefault).result = UploadResult.exception500 "save failed" :=
  ⟨rfl, rfl, rfl⟩

/-- Complement to the save-failure leak: on every path where `video.save`
completes, `temp_path` is set before anything else can raise, and the
`finally` block removes the temp file — no leak on success, FAILED,
timeout or a raising upload call. -/
theorem save_ok_releases_temp (o : UploadOracle) (req : UploadRequest)
    (mw i : Nat) (hs : o.saveOk = true) :
    (uploadOutcome o req mw i).tempLeaked = false := by
  unfold uploadOutcome
  by_cases hv : req.hasVideoField = true
  · by_cases hf : req.filename = ""
    · simp [hv, hf]
    · cases hu : o.uploadResult with
      | error e => simp [hv, hf, hs, hu]
      | ok ref =>
        cases hp : pollLoop o.getStatus mw i (mw + 1) 0 0 ref with
        | timedOut polls => simp [hv, hf, hs, hu, hp]
        | fuelOut => simp [hv, hf, hs, hu, hp]
        | finished fref polls =>
          by_cases hfail : fref.state = FileState.FAILED
          · simp [hv, hf, hs, hu, hp, hfail]
          · simp [hv, hf, hs, hu, hp, hfail]
  · simp [hv]

/-- C8: requests failing input validation are rejected with 400 before any
side effect. A missing `'video'` field or an empty filename makes
upload_video return 400 with no temp file created, zero remote upload
calls, zero polls and the state unchanged (app.py 129-134 run before any
other work); an empty chat message makes chat return 400 with the state —
in particular the history — unchanged (app.py 186-187 run before the
append and the agent call). -/
theorem validation_no_side_effects (o : UploadOracle) (req : UploadRequest)
    (a : Except String String) (mw i : Nat) (st : ServerState) :
    (req.hasVideoField = false →
      upload_video o req mw i st
        = (⟨UploadResult.badRequestNoFile, false, false, 0, 0⟩, st))
    ∧ (req.hasVideoField = true → req.filename = "" →
        upload_video o req mw i st
          = (⟨UploadResult.badRequestEmptyName, false, false, 0, 0⟩, st))
    ∧ chat a "" st = (ChatResult.badRequest, st) := by
  refine ⟨?_, ?_, ?_⟩
  · intro hv
    unfold upload_video uploadOutcome
    simp [hv]
  · intro hv hf
    unfold upload_video uploadOutcome
    simp [hv, hf]
  · unfold chat
    simp

/-- C8 witness: the three validation rejections at concrete inputs. -/
theorem validation_no_side_effects_witness :
    upload_video c6Oracle ⟨false, "a.mp4"⟩ maxWaitDefault intervalDefault
        initialState
      = (⟨UploadResult.badRequestNoFile, false, false, 0, 0⟩, initialState)
    ∧ upload_video c6Oracle ⟨true, ""⟩ maxWaitDefault intervalDefault
        initialState
      = (⟨UploadResult.badRequestEmptyName, false, false, 0, 0⟩, initialState)
    ∧ chat (Except.ok "x") "" initialState
      = (ChatResult.badRequest, initialState) :=
  ⟨(validation_no_side_effects c6Oracle ⟨false, "a.mp4"⟩ (Except.ok "x")
      maxWaitDefault intervalDefault initialState).1 rfl,
   (validation_no_side_effects c6Oracle ⟨true, ""⟩ (Except.ok "x")
      maxWaitDefault intervalDefault initialState).2.1 rfl rfl,
   (validation_no_side_effects c6Oracle ⟨true, ""⟩ (Except.ok "x")
      maxWaitDefault intervalDefault initialState).2.2⟩

/-- Oracle for a successful READY ingestion used by the session scenario. -/
def c9Oracle : UploadOracle :=
  ⟨true, Except.ok ⟨"files/vid9", FileState.READY⟩,
    fun _ => ⟨"files/vid9", FileState.READY⟩⟩

/-- C9, counterexample: app.py keys nothing by session — every request
reads and writes the module globals (app.py 33-34), so `observedHandle`
ignores the session identity. An upload issued by client "B" that reaches
READY changes the handle observed by the distinct client "A" from `none`
to the new id: session state is not independent and does bleed. -/
theorem cross_session_bleed_counterexample :
    observedHandle "A" initialState = none
      ∧ observedHandle "A"
          (upload_video c9Oracle sampleReq maxWaitDefault intervalDefault
            initialState).2 = some "files/vid9"
      ∧ "A" ≠ "B" :=
  ⟨rfl, rfl, by decide⟩

/-- C9, amended: the server keeps a single process-global handle and a
single process-global history shared by all clients; any two session
identities observe identical state, and an upload (by any client) that
reaches READY replaces the handle observed by every session. -/
theorem state_is_process_global (sidA sidB fid : String)
    (o : UploadOracle) (req : UploadRequest) (st : ServerState)
    (hok : (uploadOutcome o req maxWaitDefault intervalDefault).result
        = UploadResult.ok fid) :
    observedHandle sidA st = observedHandle sidB st
      ∧ observedLog sidA st = observedLog sidB st
      ∧ observedHandle sidA
          (upload_video o req maxWaitDefault intervalDefault st).2
        = some fid := by
  refine ⟨rfl, rfl, ?_⟩
  unfold upload_video observedHandle
  simp [hok]

/-- C9 witness: the amended statement at the concrete READY upload. -/
theorem state_is_process_global_witness :
    observedHandle "A" initialState = observedHandle "B" initialState
      ∧ observedLog "A" initialState = observedLog "B" initialState
      ∧ observedHandle "A"
          (upload_video c9Oracle sampleReq maxWaitDefault intervalDefault
            initialState).2 = some "files/vid9" :=
  state_is_process_global "A" "B" "files/vid9" c9Oracle sampleReq
    initialState rfl

/-- C10: analyze_drone_video is total — it is a function into `String`,
returning on every input: the fixed `noVideoNotice` whenever the bound
handle is falsy (`None` or empty, app.py 40-41), the error string
`visionErrPrefix ++ e` whenever the inference call raises `e`
(app.py 52-53), and the model's text on success (app.py 51). -/
theorem analyze_drone_video_total (vid : Option String)
    (g : Except String String) (q e s : String) :
    analyze_drone_video none g q = noVideoNotice
      ∧ analyze_drone_video (some "") g q = noVideoNotice
      ∧ (truthy vid = true →
          analyze_drone_video vid (Except.error e) q = visionErrPrefix ++ e)
      ∧ (truthy vid = true →
          analyze_drone_video vid (Except.ok s) q = s) := by
  refine ⟨by simp [analyze_drone_video, truthy], by simp [analyze_drone_video, truthy], ?_, ?_⟩
  · intro ht
    unfold analyze_drone_video
    simp [ht]
  · intro ht
    unfold analyze_drone_video
    simp [ht]

/-- C10 witness: concrete evaluations of each branch. -/
theorem analyze_drone_video_total_witness :
    analyze_drone_video none (Except.error "boom") "q" = noVideoNotice
      ∧ analyze_drone_video (some "") (Except.error "boom") "q" = noVideoNotice
      ∧ (truthy (some "files/v") = true →
          analyze_drone_video (some "files/v") (Except.error "boom") "q"
            = visionErrPrefix ++ "boom")
      ∧ (truthy (some "files/v") = true →
          analyze_drone_video (some "files/v") (Except.ok "text") "q"
            = "text") := by
  have h := analyze_drone_video_total (some "files/v")
    (Except.error "boom") "q" "boom" "text"
  exact ⟨h.1, h.2.1, h.2.2.1, h.2.2.2⟩
